import Mathlib

/-! Shallow embedding of the matrix-sdk-crypto-wasm orchestration layer
(src/error.rs, src/types.rs, src/responses.rs, src/machine.rs). External
collaborators (the matrix-sdk-crypto core, the crypto store, ruma response
decoders, vodozemac) are either kept abstract as parameters or modelled from
the specification, as indicated on each definition. -/

/-! ## Embedding of src/error.rs -/

/-- From src/error.rs: `DecryptionErrorCode`, the decryption error codes
exposed to JavaScript. The variant `MismatchedIdentityKeys` is documented in
the source as: decryption failed because of a mismatch between the identity
keys of the device we received the room key from and the identity keys
recorded in the plaintext of the room key to-device message. -/
inductive DecryptionErrorCode where
  | MissingRoomKey
  | UnknownMessageIndex
  | MismatchedIdentityKeys
  | UnknownSenderDevice
  | UnsignedSenderDevice
  | SenderIdentityVerificationViolation
  | UnableToDecrypt
  | MismatchedSender
deriving DecidableEq, Repr

/-- External `matrix_sdk_common::deserialized_responses::WithheldCode`,
carried opaquely as its wire string (for example "m.unverified"). -/
structure WithheldCode where
  code : String
deriving DecidableEq, Repr

/-- External `matrix_sdk_common::deserialized_responses::DeviceLinkProblem`,
the payload of `VerificationLevel::None`. -/
inductive DeviceLinkProblem where
  | MissingDevice
  | InsecureSource
deriving DecidableEq, Repr

/-- External `matrix_sdk_common::deserialized_responses::VerificationLevel`:
the variants matched in src/error.rs. -/
inductive VerificationLevel where
  | VerificationViolation
  | UnsignedDevice
  | None (problem : DeviceLinkProblem)
  | UnverifiedIdentity
  | MismatchedSender
deriving DecidableEq, Repr

/-- External `vodozemac::megolm::DecryptionError`: only the
`UnknownMessageIndex` constructor is matched by name in src/error.rs; every
other constructor falls into the catch-all arm and is represented by
`Other`. -/
inductive VodozemacMegolmDecryptionError where
  | UnknownMessageIndex (known_index : Nat) (requested_index : Nat)
  | Other (message : String)
deriving DecidableEq, Repr

/-- External `matrix_sdk_crypto::MegolmError`: the variants matched in
src/error.rs; the remaining variants all fall into the `_` arm of the match
and are represented by `Other`. -/
inductive MegolmError where
  | MissingRoomKey (withheld_code : Option WithheldCode)
  | Decryption (error : VodozemacMegolmDecryptionError)
  | MismatchedIdentityKeys
  | SenderIdentityNotTrusted (level : VerificationLevel)
  | Other (message : String)
deriving DecidableEq, Repr

/-- The `Display` text of a `MegolmError` (`value.to_string()` in
src/error.rs). The exact text comes from external `thiserror` formatting, so
it is kept abstract: only its presence in the `description` field matters. -/
def MegolmError.display (value : MegolmError) : String :=
  reprStr value

/-- From src/error.rs: `MegolmDecryptionError`, the decryption error exposed
to JavaScript, with a description code, a detailed description and an
optional withheld code. -/
structure MegolmDecryptionError where
  code : DecryptionErrorCode
  description : String
  withheld_code : Option WithheldCode
deriving DecidableEq, Repr

/-- From src/error.rs: `MegolmDecryptionError::unable_to_decrypt`. -/
def MegolmDecryptionError.unable_to_decrypt (desc : String) : MegolmDecryptionError :=
  { code := .UnableToDecrypt, description := desc, withheld_code := none }

/-- From src/error.rs lines 83 to 127: `impl From<MegolmError> for
MegolmDecryptionError`. The returned `Bool` records whether the `warn!` call
was reached; the only arm that logs a warning is the
`VerificationLevel::UnverifiedIdentity` arm. -/
def megolmErrorToDecryptionError (value : MegolmError) : MegolmDecryptionError × Bool :=
  let decryption_error : DecryptionErrorCode → Option WithheldCode → MegolmDecryptionError :=
    fun code withheld_code =>
      { code := code, description := value.display, withheld_code := withheld_code }
  match value with
  | .MissingRoomKey withheld_code =>
      (decryption_error .MissingRoomKey withheld_code, false)
  | .Decryption (.UnknownMessageIndex _ _) =>
      (decryption_error .UnknownMessageIndex none, false)
  | .MismatchedIdentityKeys =>
      (decryption_error .UnknownMessageIndex none, false)
  | .SenderIdentityNotTrusted level =>
      match level with
      | .VerificationViolation =>
          (decryption_error .SenderIdentityVerificationViolation none, false)
      | .UnsignedDevice =>
          (decryption_error .UnsignedSenderDevice none, false)
      | .None _ =>
          (decryption_error .UnknownSenderDevice none, false)
      | .UnverifiedIdentity =>
          (decryption_error .UnableToDecrypt none, true)
      | .MismatchedSender =>
          (decryption_error .MismatchedSender none, false)
  | .Decryption (.Other _) =>
      (decryption_error .UnableToDecrypt none, false)
  | .Other _ =>
      (decryption_error .UnableToDecrypt none, false)

/-! ## Embedding of the OlmMachine JavaScript constructor (src/machine.rs) -/

/-- The wasm `OlmMachine` object from src/machine.rs; its inner crypto
machine and tracing subscriber are irrelevant to the constructor claim and
are left opaque. -/
structure OlmMachine where
  inner : Unit
deriving DecidableEq, Repr

/-- From src/machine.rs lines 71 to 79: the JavaScript constructor
(`OlmMachine::new`) always fails, directing the caller to the `initialize`
method. -/
def OlmMachine.new : Except String OlmMachine :=
  .error "To build an `OlmMachine`, please use the `initialize` method"

/-! ## Embedding of src/types.rs and src/responses.rs: processed to-device
events -/

/-- External `matrix_sdk_common::deserialized_responses::AlgorithmInfo`: the
two algorithms distinguished in src/responses.rs. -/
inductive AlgorithmInfo where
  | MegolmV1AesSha2 (curve25519_key : String) (sender_claimed_ed25519_key : Option String)
  | OlmV1Curve25519AesSha2 (curve25519_public_key_base64 : String)
deriving DecidableEq, Repr

/-- External `matrix_sdk_common::deserialized_responses::VerificationState`. -/
inductive VerificationState where
  | Verified
  | Unverified (level : VerificationLevel)
deriving DecidableEq, Repr

/-- External `matrix_sdk_common::deserialized_responses::EncryptionInfo`: the
fields read in src/responses.rs. -/
structure EncryptionInfo where
  sender : String
  sender_device : Option String
  algorithm_info : AlgorithmInfo
  verification_state : VerificationState
deriving DecidableEq, Repr

/-- From src/responses.rs: `ToDeviceEncryptionInfo`, the wasm-side encryption
information of a decrypted to-device message. -/
structure ToDeviceEncryptionInfo where
  sender_curve25519_key_base64 : String
  sender : String
  sender_device : Option String
  verification_state : VerificationState
deriving DecidableEq, Repr

/-- From src/responses.rs lines 356 to 375: `impl TryFrom<EncryptionInfo> for
ToDeviceEncryptionInfo`. Fails when the algorithm info is
`MegolmV1AesSha2`, which is not applicable to a to-device message. -/
def toDeviceEncryptionInfo_tryFrom (value : EncryptionInfo) :
    Except String ToDeviceEncryptionInfo :=
  match value.algorithm_info with
  | .MegolmV1AesSha2 _ _ =>
      .error "AlgorithmInfo::MegolmV1AesSha2 is not applicable for ToDeviceEncryptionInfo"
  | .OlmV1Curve25519AesSha2 curve25519_public_key_base64 =>
      .ok { sender_curve25519_key_base64 := curve25519_public_key_base64
            sender := value.sender
            sender_device := value.sender_device
            verification_state := value.verification_state }

/-- From src/types.rs: `ToDeviceUnableToDecryptReason` (the wasm enum; the
external `matrix_sdk_common` enum has the same four variants and the `From`
conversion in src/types.rs lines 471 to 485 maps each variant to its
namesake, so a single type faithfully represents both). -/
inductive ToDeviceUnableToDecryptReason where
  | DecryptionFailure
  | UnverifiedSenderDevice
  | NoOlmMachine
  | EncryptionIsDisabled
deriving DecidableEq, Repr

/-- From src/types.rs: `ToDeviceUnableToDecryptInfo` (and its external
counterpart, converted field-by-field in src/types.rs lines 495 to 501). -/
structure ToDeviceUnableToDecryptInfo where
  reason : ToDeviceUnableToDecryptReason
deriving DecidableEq, Repr

/-- External
`matrix_sdk_common::deserialized_responses::ProcessedToDeviceEvent` as
consumed in src/types.rs; raw events are carried as their JSON text. -/
inductive InnerProcessedToDeviceEvent where
  | Decrypted (raw : String) (encryption_info : EncryptionInfo)
  | UnableToDecrypt (encrypted_event : String) (utd_info : ToDeviceUnableToDecryptInfo)
  | PlainText (plain : String)
  | Invalid (raw : String)
deriving DecidableEq, Repr

/-- From src/types.rs: `ProcessedToDeviceEventType`, the four categories. -/
inductive ProcessedToDeviceEventType where
  | Decrypted
  | UnableToDecrypt
  | PlainText
  | Invalid
deriving DecidableEq, Repr

/-- The four wasm structs `DecryptedToDeviceEvent`, `UTDToDeviceEvent`,
`PlainTextToDeviceEvent` and `InvalidToDeviceEvent` of src/types.rs,
collected into the JsValue union returned to JavaScript. -/
inductive JsProcessedToDeviceEvent where
  | DecryptedToDeviceEvent (raw_event : String) (encryption_info : ToDeviceEncryptionInfo)
  | UTDToDeviceEvent (raw_event : String) (utd_info : ToDeviceUnableToDecryptInfo)
  | PlainTextToDeviceEvent (raw_event : String)
  | InvalidToDeviceEvent (raw_event : String)
deriving DecidableEq, Repr

/-- The `type` getter of each of the four structs (src/types.rs): each struct
always reports its own fixed category. -/
def JsProcessedToDeviceEvent.processed_type :
    JsProcessedToDeviceEvent → ProcessedToDeviceEventType
  | .DecryptedToDeviceEvent _ _ => .Decrypted
  | .UTDToDeviceEvent _ _ => .UnableToDecrypt
  | .PlainTextToDeviceEvent _ => .PlainText
  | .InvalidToDeviceEvent _ => .Invalid

/-- How many of the four categories an event is tagged with. -/
def categoryTagCount (e : JsProcessedToDeviceEvent) : Nat :=
  List.countP (fun t => e.processed_type == t)
    [ProcessedToDeviceEventType.Decrypted, ProcessedToDeviceEventType.UnableToDecrypt,
      ProcessedToDeviceEventType.PlainText, ProcessedToDeviceEventType.Invalid]

/-- From src/types.rs lines 563 to 604: convert a processed to-device event
into a JsValue; returns `none` — the event is discarded — when a decrypted
event's encryption info cannot be converted. -/
def processed_to_device_event_to_js_value
    (processed_to_device_event : InnerProcessedToDeviceEvent) :
    Option JsProcessedToDeviceEvent :=
  match processed_to_device_event with
  | .Decrypted raw encryption_info =>
      match toDeviceEncryptionInfo_tryFrom encryption_info with
      | .ok encryption_info => some (.DecryptedToDeviceEvent raw encryption_info)
      | .error _ => none
  | .UnableToDecrypt encrypted_event utd_info =>
      some (.UTDToDeviceEvent encrypted_event utd_info)
  | .PlainText plain => some (.PlainTextToDeviceEvent plain)
  | .Invalid invalid => some (.InvalidToDeviceEvent invalid)

/-- A raw to-device payload, as JSON text. -/
abbrev ToDevicePayload := String

/-- Modelled from the spec: the external
`matrix_sdk_crypto::OlmMachine::receive_sync_changes` (the Crypto Core's sync
ingestion, not part of this repository) produces, for each to-device payload
and in input order, exactly one processed to-device event; the per-payload
classification is abstracted as `classify`. -/
def inner_receive_sync_changes
    (classify : ToDevicePayload → InnerProcessedToDeviceEvent)
    (to_device_events : List ToDevicePayload) : List InnerProcessedToDeviceEvent :=
  to_device_events.map classify

/-- From src/machine.rs lines 381 to 402 (the promise body of
`receiveSyncChanges`): run the inner machine, then convert each processed
event with `processed_to_device_event_to_js_value`, discarding
(`filter_map`) the events that convert to `None`. -/
def receive_sync_changes
    (classify : ToDevicePayload → InnerProcessedToDeviceEvent)
    (to_device_events : List ToDevicePayload) : List JsProcessedToDeviceEvent :=
  (inner_receive_sync_changes classify to_device_events).filterMap
    processed_to_device_event_to_js_value

/-- The value returned for an event that survives conversion (the default is
never used on surviving events). -/
def jsOrInvalid (e : InnerProcessedToDeviceEvent) : JsProcessedToDeviceEvent :=
  (processed_to_device_event_to_js_value e).getD (.InvalidToDeviceEvent "")

/-- Every JsValue produced for JavaScript carries exactly one of the four
category tags. -/
theorem categoryTagCount_eq_one (e : JsProcessedToDeviceEvent) :
    categoryTagCount e = 1 := by
  cases e <;> rfl

/-! ## Embedding of the stream-to-callback bridge (src/machine.rs) -/

/-- From src/machine.rs lines 1912 to 1936: `copy_stream_to_callback`. The
stream is embedded as the list of items it ever yields; a JavaScript callback
invocation that throws or rejects is an `Except.error` outcome. The function
returns the invocation log: each value sent to the callback, in order, paired
with the outcome of that invocation. An error outcome is logged with `warn!`
and the loop continues with the next value. -/
def copy_stream_to_callback {Item MappedType : Type}
    (stream : List Item) (mapper : Item → List MappedType)
    (callback : MappedType → Except String Unit) :
    List (MappedType × Except String Unit) :=
  match stream with
  | [] => []
  | item :: rest =>
      ((mapper item).map fun val => (val, callback val))
        ++ copy_stream_to_callback rest mapper callback

/-- From src/machine.rs / src/types.rs: `RoomKeyInfo`, opaque here. -/
structure RoomKeyInfo where
  info : String
deriving DecidableEq, Repr

/-- From src/machine.rs lines 1417 to 1436: `registerRoomKeyUpdatedCallback`
wires the store's room-keys-received stream to the callback through
`copy_stream_to_callback`; a stream error is logged and mapped to one empty
batch. -/
def register_room_key_updated_callback
    (stream : List (Except String (List RoomKeyInfo)))
    (callback : List RoomKeyInfo → Except String Unit) :
    List (List RoomKeyInfo × Except String Unit) :=
  copy_stream_to_callback stream
    (fun input =>
      match input with
      | .ok keys => [keys]
      | .error _ => [[]])
    callback

/-- The first components of the invocation log are exactly the mapped stream
items, in order: no failure shortens the log. -/
theorem copy_stream_to_callback_map_fst {Item MappedType : Type}
    (stream : List Item) (mapper : Item → List MappedType)
    (callback : MappedType → Except String Unit) :
    (copy_stream_to_callback stream mapper callback).map Prod.fst
      = (stream.map mapper).flatten := by
  induction stream with
  | nil => rfl
  | cons item rest ih =>
      simp [copy_stream_to_callback, List.map_append, List.map_map, Function.comp_def, ih]

/-! ## Theorems for claims C5, C6 and C10 -/

/-- C5: evaluating the embedded conversion at the failing input
`MegolmError::MismatchedIdentityKeys` shows that the code produces
`DecryptionErrorCode::UnknownMessageIndex` (the ratcheted-past-index reason),
not the dedicated `MismatchedIdentityKeys` code that the claim (and the
variant's own documentation in src/error.rs) requires. -/
theorem mismatchedIdentityKeys_maps_to_unknownMessageIndex :
    (megolmErrorToDecryptionError .MismatchedIdentityKeys).1.code
      = DecryptionErrorCode.UnknownMessageIndex ∧
    (megolmErrorToDecryptionError .MismatchedIdentityKeys).1.code
      ≠ DecryptionErrorCode.MismatchedIdentityKeys := by
  constructor
  · rfl
  · intro h
    exact DecryptionErrorCode.noConfusion h

/-- C6: converting a `MegolmError::SenderIdentityNotTrusted` error with
verification level `UnverifiedIdentity` yields the generic
`UnableToDecrypt` code with no withheld code, and the warning branch is the
one taken; in particular no dedicated unverified-identity code is
produced. -/
theorem unverifiedIdentity_downgraded_to_generic :
    (megolmErrorToDecryptionError (.SenderIdentityNotTrusted .UnverifiedIdentity)).1.code
      = DecryptionErrorCode.UnableToDecrypt ∧
    (megolmErrorToDecryptionError
        (.SenderIdentityNotTrusted .UnverifiedIdentity)).1.withheld_code = none ∧
    (megolmErrorToDecryptionError (.SenderIdentityNotTrusted .UnverifiedIdentity)).2
      = true := by
  exact ⟨rfl, rfl, rfl⟩

/-- C10: the JavaScript constructor `new OlmMachine()` always returns the
error directing the caller to the `initialize` method, and never yields an
`OlmMachine` instance. -/
theorem olmMachine_constructor_always_fails :
    OlmMachine.new
      = Except.error "To build an `OlmMachine`, please use the `initialize` method" ∧
    ∀ m : OlmMachine, OlmMachine.new ≠ Except.ok m := by
  refine ⟨rfl, ?_⟩
  intro m h
  simp [OlmMachine.new] at h

/-! ## Theorems for claims C1 and C7 -/

/-- C1 counterexample: one to-device payload whose classification is a
decrypted event carrying `MegolmV1AesSha2` algorithm info — the case that
src/types.rs documents as discarded — produces an empty result: 0 processed
events from 1 payload, so the resolved result does not contain exactly N
values. -/
theorem receiveSyncChanges_drops_unconvertible_event :
    (receive_sync_changes
        (fun _ => .Decrypted "raw"
          { sender := "@alice:example.org"
            sender_device := none
            algorithm_info := .MegolmV1AesSha2 "curve" none
            verification_state := .Unverified .UnsignedDevice })
        ["payload"]).length = 0 ∧
    (["payload"] : List ToDevicePayload).length = 1 := by
  exact ⟨rfl, rfl⟩

/-- C1 (amended): for N to-device payloads the resolved result contains at
most N values, each tagged with exactly one of the four categories; the
result is always in input order — it is a subsequence of the per-payload
conversions, also when events are discarded — and it contains exactly N
values whenever every classified event survives conversion, that is, unless
a decrypted event carries encryption info whose algorithm cannot be
converted, in which case that event is discarded. -/
theorem receiveSyncChanges_count_order_categories
    (classify : ToDevicePayload → InnerProcessedToDeviceEvent)
    (to_device_events : List ToDevicePayload) :
    (receive_sync_changes classify to_device_events).length ≤ to_device_events.length
    ∧ (∀ e ∈ receive_sync_changes classify to_device_events, categoryTagCount e = 1)
    ∧ List.Sublist (receive_sync_changes classify to_device_events)
        (to_device_events.map fun ev => jsOrInvalid (classify ev))
    ∧ ((∀ ev ∈ to_device_events,
          (processed_to_device_event_to_js_value (classify ev)).isSome) →
        receive_sync_changes classify to_device_events
          = to_device_events.map fun ev => jsOrInvalid (classify ev)) := by
  refine ⟨?_, fun e _ => categoryTagCount_eq_one e, ?_, ?_⟩
  · calc (receive_sync_changes classify to_device_events).length
        ≤ (inner_receive_sync_changes classify to_device_events).length :=
          List.length_filterMap_le _ _
      _ = to_device_events.length := List.length_map _ _
  · unfold receive_sync_changes inner_receive_sync_changes
    induction to_device_events with
    | nil => exact List.Sublist.refl _
    | cons ev rest ih =>
        simp only [List.map_cons, List.filterMap_cons]
        rcases hjs : processed_to_device_event_to_js_value (classify ev) with _ | js
        · exact ih.cons _
        · have hhead : jsOrInvalid (classify ev) = js := by
            simp [jsOrInvalid, hjs]
          rw [hhead]
          exact ih.cons₂ _
  · intro h
    unfold receive_sync_changes inner_receive_sync_changes
    induction to_device_events with
    | nil => rfl
    | cons ev rest ih =>
        have hev := h ev (by simp)
        obtain ⟨js, hjs⟩ := Option.isSome_iff_exists.mp hev
        have hhead : jsOrInvalid (classify ev) = js := by
          simp [jsOrInvalid, hjs]
        simp only [List.map_cons, List.filterMap_cons, hjs, hhead]
        rw [ih fun x hx => h x (List.mem_cons_of_mem _ hx)]

/-- C1 witness: the amended theorem applied to two plaintext payloads, whose
classifications all survive conversion: exactly 2 events, in input order. -/
theorem receiveSyncChanges_count_order_categories_witness :
    receive_sync_changes (fun p => .PlainText p) ["a", "b"]
      = (["a", "b"] : List ToDevicePayload).map
          fun ev => jsOrInvalid (InnerProcessedToDeviceEvent.PlainText ev) :=
  (receiveSyncChanges_count_order_categories (fun p => .PlainText p) ["a", "b"]).2.2.2
    (by decide)

/-- C7: the bridge invokes the callback on every value produced by the
stream, in order, regardless of earlier failing invocations: the invocation
log covers exactly the mapped stream, and every value — also each one after a
value whose invocation failed — appears in the log with its own outcome. -/
theorem copyStreamToCallback_survives_failures {Item MappedType : Type}
    (stream : List Item) (mapper : Item → List MappedType)
    (callback : MappedType → Except String Unit) :
    (copy_stream_to_callback stream mapper callback).map Prod.fst
      = (stream.map mapper).flatten
    ∧ ∀ val ∈ (stream.map mapper).flatten,
        (val, callback val) ∈ copy_stream_to_callback stream mapper callback := by
  refine ⟨copy_stream_to_callback_map_fst stream mapper callback, ?_⟩
  intro val hval
  induction stream with
  | nil => simp at hval
  | cons item rest ih =>
      simp only [List.map_cons, List.flatten_cons, List.mem_append] at hval
      rcases hval with hhead | htail
      · exact List.mem_append_left _ (List.mem_map_of_mem _ hhead)
      · exact List.mem_append_right _ (ih htail)

/-- C7 witness: the spec scenario — a callback that throws on the first of
three one-value batches is still invoked on the second and the third: the
invocation log covers all three values. -/
theorem copyStreamToCallback_survives_failures_witness :
    (copy_stream_to_callback [1, 2, 3] (fun n => [n])
        (fun n => if n = 1 then .error "thrown" else .ok ())).map Prod.fst
      = ([1, 2, 3].map fun n => [n]).flatten :=
  (copyStreamToCallback_survives_failures [1, 2, 3] (fun n => [n])
    (fun n => if n = 1 then .error "thrown" else .ok ())).1

/-! ## Room key store: import with the non-downgrade rule (C2), passphrase
export (C3) and the room key bundle (C8) -/

/-- External `matrix_sdk_crypto::olm::InboundGroupSession`, reduced to its
identifying triple, its first known (ratchet) index and opaque session
data. -/
structure InboundGroupSession where
  room_id : String
  sender_key : String
  session_id : String
  first_known_index : Nat
  session_data : String
deriving DecidableEq, Repr

/-- The key store of the external crypto store, as the list of inbound group
sessions it holds. -/
abbrev SessionStore := List InboundGroupSession

/-- Look up the session stored under `(room_id, sender_key, session_id)`. -/
def lookupSession (store : SessionStore) (room_id sender_key session_id : String) :
    Option InboundGroupSession :=
  store.find? fun s =>
    s.room_id == room_id && s.sender_key == sender_key && s.session_id == session_id

/-- Modelled from the spec: the merge step of the external
`Store::import_exported_room_keys` / `Store::import_room_keys` (shared by
`importExportedRoomKeys`, `importRoomKeys` and `importBackedUpRoomKeys` as
invoked from src/machine.rs): a session already stored under the same
`(room_id, sender_key, session_id)` at a ratchet index greater than or equal
to the candidate's is never downgraded — importing that candidate is a
no-op; otherwise the candidate replaces the existing session, or is appended
when the triple is new. -/
def importRoomKey (store : SessionStore) (candidate : InboundGroupSession) :
    SessionStore :=
  match lookupSession store candidate.room_id candidate.sender_key candidate.session_id with
  | some existing =>
      if candidate.first_known_index ≤ existing.first_known_index then store
      else
        store.map fun s =>
          if s.room_id == candidate.room_id && s.sender_key == candidate.sender_key
              && s.session_id == candidate.session_id then candidate else s
  | none => store ++ [candidate]

/-- Modelled from the spec: importing a list of exported room keys folds the
single-key merge over the list, in order (src/machine.rs
`import_exported_room_keys_helper` hands the whole list to the store). -/
def import_exported_room_keys (store : SessionStore)
    (exported_room_keys : List InboundGroupSession) : SessionStore :=
  exported_room_keys.foldl importRoomKey store

/-- C2: if the store holds K1 under the same `(room_id, sender_key,
session_id)` as the candidate K2 and K1's ratchet index is greater than or
equal to K2's, importing K2 leaves the store exactly as it was. -/
theorem importRoomKeys_no_downgrade (store : SessionStore)
    (k1 k2 : InboundGroupSession)
    (hfound : lookupSession store k2.room_id k2.sender_key k2.session_id = some k1)
    (hidx : k1.first_known_index ≥ k2.first_known_index) :
    import_exported_room_keys store [k2] = store := by
  simp only [import_exported_room_keys, List.foldl_cons, List.foldl_nil, importRoomKey,
    hfound]
  exact if_pos hidx

/-- C2 witness: a store holding a session at ratchet index 5 is unchanged by
importing a candidate with the same triple at index 3. -/
theorem importRoomKeys_no_downgrade_witness :
    import_exported_room_keys
        [{ room_id := "!room:example.org", sender_key := "curve25519key",
           session_id := "session1", first_known_index := 5, session_data := "old" }]
        [{ room_id := "!room:example.org", sender_key := "curve25519key",
           session_id := "session1", first_known_index := 3, session_data := "candidate" }]
      = [{ room_id := "!room:example.org", sender_key := "curve25519key",
           session_id := "session1", first_known_index := 5, session_data := "old" }] :=
  importRoomKeys_no_downgrade _
    { room_id := "!room:example.org", sender_key := "curve25519key",
      session_id := "session1", first_known_index := 5, session_data := "old" }
    _ (by decide) (by decide)

/-- External `matrix_sdk_crypto::olm::ExportedRoomKey`, reduced to its
identifying fields and opaque key material. -/
structure ExportedRoomKey where
  room_id : String
  sender_key : String
  session_id : String
  session_key : String
deriving DecidableEq, Repr

/-- Modelled from the spec: the self-describing encrypted container produced
by the external `matrix_sdk_crypto::encrypt_room_key_export`. It records the
key-derivation round count in the clear; the payload is recoverable exactly
when decryption runs with the passphrase the container was built with
(ideal model of the passphrase-derived AES key and MAC). -/
structure KeyExportContainer where
  rounds : Nat
  passphrase_binding : String
  payload : List ExportedRoomKey
deriving DecidableEq, Repr

/-- From src/machine.rs lines 1384 to 1394 (`encryptExportedRoomKeys`),
with the external `encrypt_room_key_export` modelled from the spec. -/
def encrypt_exported_room_keys (exported_room_keys : List ExportedRoomKey)
    (passphrase : String) (rounds : Nat) : KeyExportContainer :=
  { rounds := rounds, passphrase_binding := passphrase,
    payload := exported_room_keys }

/-- From src/machine.rs lines 1401 to 1410 (`decryptExportedRoomKeys`),
with the external `decrypt_room_key_export` modelled from the spec: it fails
closed — on a passphrase mismatch the result is an error carrying no
keys. -/
def decrypt_exported_room_keys (encrypted_exported_room_keys : KeyExportContainer)
    (passphrase : String) : Except String (List ExportedRoomKey) :=
  if encrypted_exported_room_keys.passphrase_binding = passphrase then
    .ok encrypted_exported_room_keys.payload
  else
    .error "Error decrypting: invalid MAC"

/-- C3: decrypting with the encryption passphrase reproduces the exported
key set exactly, for every round count; decrypting with any different
passphrase fails and the error carries no keys. -/
theorem roomKeyExport_roundtrip (S : List ExportedRoomKey) (p : String) (r : Nat) :
    decrypt_exported_room_keys (encrypt_exported_room_keys S p r) p = .ok S
    ∧ ∀ p2 : String, p2 ≠ p →
        decrypt_exported_room_keys (encrypt_exported_room_keys S p r) p2
          = .error "Error decrypting: invalid MAC" := by
  constructor
  · simp [decrypt_exported_room_keys, encrypt_exported_room_keys]
  · intro p2 hne
    simp [decrypt_exported_room_keys, encrypt_exported_room_keys, Ne.symm hne]

/-- C3 witness: a one-key export encrypted under "correct horse" with 10000
rounds decrypts back exactly under "correct horse" and fails closed under
"wrong". -/
theorem roomKeyExport_roundtrip_witness :
    decrypt_exported_room_keys
        (encrypt_exported_room_keys
          [{ room_id := "!room:example.org", sender_key := "curve25519key",
             session_id := "session1", session_key := "material" }]
          "correct horse" 10000)
        "correct horse"
      = Except.ok
          [{ room_id := "!room:example.org", sender_key := "curve25519key",
             session_id := "session1", session_key := "material" }]
    ∧ decrypt_exported_room_keys
        (encrypt_exported_room_keys
          [{ room_id := "!room:example.org", sender_key := "curve25519key",
             session_id := "session1", session_key := "material" }]
          "correct horse" 10000)
        "wrong"
      = Except.error "Error decrypting: invalid MAC" :=
  ⟨(roomKeyExport_roundtrip _ "correct horse" 10000).1,
    (roomKeyExport_roundtrip _ "correct horse" 10000).2 "wrong" (by decide)⟩

/-- From src/machine.rs: `EncryptedAttachment`, the value produced by the
external `attachment::Attachment::encrypt`; opaque here. -/
structure EncryptedAttachment where
  ciphertext : String
deriving DecidableEq, Repr

/-- Modelled from the spec: the external `Store::build_room_key_bundle`
assembles all room keys held for the given room into a bundle; the bundle is
empty exactly when the store holds no key for that room. -/
def store_build_room_key_bundle (store : SessionStore) (room_id : String) :
    List InboundGroupSession :=
  store.filter fun s => s.room_id == room_id

/-- From src/machine.rs lines 1706 to 1724: `buildRoomKeyBundle` resolves to
`undefined` (`none`) when the assembled bundle is empty, and otherwise to the
bundle serialized and encrypted by the external attachment encryption,
abstracted here as `encrypt`. -/
def build_room_key_bundle
    (encrypt : List InboundGroupSession → EncryptedAttachment)
    (store : SessionStore) (room_id : String) : Option EncryptedAttachment :=
  let bundle := store_build_room_key_bundle store room_id
  if bundle.isEmpty then none
  else some (encrypt bundle)

/-- C8: when the store holds no room key for the room, `buildRoomKeyBundle`
resolves to `undefined` rather than an encrypted attachment of an empty
payload; and an encrypted attachment is produced only for a non-empty
bundle, of which it is the encryption. -/
theorem buildRoomKeyBundle_empty_none
    (encrypt : List InboundGroupSession → EncryptedAttachment)
    (store : SessionStore) (room_id : String) :
    ((∀ s ∈ store, s.room_id ≠ room_id) →
        build_room_key_bundle encrypt store room_id = none)
    ∧ ∀ a, build_room_key_bundle encrypt store room_id = some a →
        store_build_room_key_bundle store room_id ≠ []
        ∧ a = encrypt (store_build_room_key_bundle store room_id) := by
  constructor
  · intro h
    have hnil : store_build_room_key_bundle store room_id = [] := by
      simp only [store_build_room_key_bundle, List.filter_eq_nil_iff]
      intro s hs
      simpa using h s hs
    simp [build_room_key_bundle, hnil]
  · intro a ha
    unfold build_room_key_bundle at ha
    rcases hb : store_build_room_key_bundle store room_id with _ | ⟨x, xs⟩
    · rw [hb] at ha
      simp at ha
    · rw [hb] at ha
      simp only [List.isEmpty_cons, Bool.false_eq_true, if_false,
        Option.some.injEq] at ha
      exact ⟨List.cons_ne_nil x xs, ha.symm⟩

/-- C8 witness: a store holding a key only for another room yields
`undefined` for the queried room. -/
theorem buildRoomKeyBundle_empty_none_witness :
    build_room_key_bundle (fun _ => { ciphertext := "ct" })
        [{ room_id := "!other:example.org", sender_key := "curve25519key",
           session_id := "session1", first_known_index := 0, session_data := "d" }]
        "!room:example.org"
      = none :=
  (buildRoomKeyBundle_empty_none _ _ _).1 (by decide)

/-! ## Request ledger and markRequestAsSent (C4) -/

/-- Modelled from the spec (src/requests.rs is not among the provided
sources): `RequestType`, the seven kinds of outgoing requests. -/
inductive RequestType where
  | KeysUpload
  | KeysQuery
  | KeysClaim
  | ToDevice
  | SignatureUpload
  | RoomMessage
  | KeysBackup
deriving DecidableEq, Repr

/-- From src/responses.rs: `OwnedResponse`, the decoded ruma response of each
kind; each decoded response is carried opaquely. -/
inductive OwnedResponse where
  | KeysUpload (response : String)
  | KeysQuery (response : String)
  | KeysClaim (response : String)
  | ToDevice (response : String)
  | SignatureUpload (response : String)
  | RoomMessage (response : String)
  | KeysBackup (response : String)
deriving DecidableEq, Repr

/-- The kind tag of an `OwnedResponse` (used by the inner machine for the
request/response kind check). -/
def OwnedResponse.kind : OwnedResponse → RequestType
  | .KeysUpload _ => .KeysUpload
  | .KeysQuery _ => .KeysQuery
  | .KeysClaim _ => .KeysClaim
  | .ToDevice _ => .ToDevice
  | .SignatureUpload _ => .SignatureUpload
  | .RoomMessage _ => .RoomMessage
  | .KeysBackup _ => .KeysBackup

/-- The external ruma `try_from_http_response` decoders, one per response
type: each either decodes the raw HTTP body or fails. -/
structure RumaResponseDecoders where
  keysUpload : String → Option String
  keysQuery : String → Option String
  keysClaim : String → Option String
  toDevice : String → Option String
  signatureUpload : String → Option String
  roomMessage : String → Option String
  keysBackup : String → Option String

/-- From src/responses.rs lines 84 to 131: `impl TryFrom<(RequestType,
http::Response<Vec<u8>>)> for OwnedResponse` — decode the response body with
the decoder of the given request type and wrap it in the matching variant; a
decoder failure is surfaced as an error. -/
def owned_response_try_from (dec : RumaResponseDecoders)
    (request_type : RequestType) (response : String) : Except String OwnedResponse :=
  match request_type with
  | .KeysUpload =>
      match dec.keysUpload response with
      | some r => .ok (.KeysUpload r)
      | none => .error "failed to deserialize the response"
  | .KeysQuery =>
      match dec.keysQuery response with
      | some r => .ok (.KeysQuery r)
      | none => .error "failed to deserialize the response"
  | .KeysClaim =>
      match dec.keysClaim response with
      | some r => .ok (.KeysClaim r)
      | none => .error "failed to deserialize the response"
  | .ToDevice =>
      match dec.toDevice response with
      | some r => .ok (.ToDevice r)
      | none => .error "failed to deserialize the response"
  | .SignatureUpload =>
      match dec.signatureUpload response with
      | some r => .ok (.SignatureUpload r)
      | none => .error "failed to deserialize the response"
  | .RoomMessage =>
      match dec.roomMessage response with
      | some r => .ok (.RoomMessage r)
      | none => .error "failed to deserialize the response"
  | .KeysBackup =>
      match dec.keysBackup response with
      | some r => .ok (.KeysBackup r)
      | none => .error "failed to deserialize the response"

/-- From the spec data model: an entry of the Request Ledger. -/
structure OutgoingRequest where
  transaction_id : String
  request_type : RequestType
  body : String
deriving DecidableEq, Repr

/-- Modelled from the spec: the Request Ledger of the inner machine, the
outstanding outgoing requests keyed by transaction ID. -/
structure RequestLedger where
  entries : List OutgoingRequest
deriving DecidableEq, Repr

/-- From src/machine.rs lines 418 to 433, with the ledger modelled from the
spec: `outgoingRequests` polls all currently pending entries. -/
def outgoing_requests (ledger : RequestLedger) : List OutgoingRequest :=
  ledger.entries

/-- Modelled from the spec: the inner
`matrix_sdk_crypto::OlmMachine::mark_request_as_sent` — acknowledging an
unknown transaction ID is a tolerated no-op; a kind mismatch is an error
leaving the ledger unchanged; otherwise the acknowledged entry is
removed. -/
def inner_mark_request_as_sent (ledger : RequestLedger) (transaction_id : String)
    (incoming_response : OwnedResponse) : RequestLedger × Except String Bool :=
  match ledger.entries.find? (fun r => r.transaction_id == transaction_id) with
  | none => (ledger, .ok true)
  | some entry =>
      if entry.request_type = incoming_response.kind then
        ({ entries := ledger.entries.filter
              fun r => !(r.transaction_id == transaction_id) },
          .ok true)
      else
        (ledger, .error "RequestTypeMismatch")

/-- From src/machine.rs lines 446 to 463: `markRequestAsSent` first decodes
the response against the request type; the `?` operator returns a decode
error to the caller before the inner machine — and hence the ledger — is
touched. State-passing embedding: the result pairs the ledger after the call
with the value returned to JavaScript. -/
def mark_request_as_sent (dec : RumaResponseDecoders) (ledger : RequestLedger)
    (request_id : String) (request_type : RequestType) (response : String) :
    RequestLedger × Except String Bool :=
  match owned_response_try_from dec request_type response with
  | .error e => (ledger, .error e)
  | .ok incoming_response =>
      inner_mark_request_as_sent ledger request_id incoming_response

/-- C4: when the response body cannot be decoded against the request type,
`markRequestAsSent` returns an error and the ledger is unchanged, so every
request pending before the call — the undecodably-acknowledged one
included — is still returned by subsequent `outgoingRequests` polls. -/
theorem markRequestAsSent_decode_failure_retains_requests
    (dec : RumaResponseDecoders) (ledger : RequestLedger)
    (request_id : String) (request_type : RequestType) (response : String)
    (hdec : ∃ e, owned_response_try_from dec request_type response = .error e) :
    (mark_request_as_sent dec ledger request_id request_type response).1 = ledger
    ∧ (∃ e, (mark_request_as_sent dec ledger request_id request_type response).2
        = .error e)
    ∧ outgoing_requests
        (mark_request_as_sent dec ledger request_id request_type response).1
      = outgoing_requests ledger := by
  obtain ⟨e, he⟩ := hdec
  refine ⟨?_, ⟨e, ?_⟩, ?_⟩ <;> simp [mark_request_as_sent, he, outgoing_requests]

/-- C4 witness: decoders that reject every body leave a one-entry ledger
untouched. -/
theorem markRequestAsSent_decode_failure_retains_requests_witness :
    (mark_request_as_sent
        { keysUpload := fun _ => none, keysQuery := fun _ => none,
          keysClaim := fun _ => none, toDevice := fun _ => none,
          signatureUpload := fun _ => none, roomMessage := fun _ => none,
          keysBackup := fun _ => none }
        { entries := [{ transaction_id := "txn1",
                        request_type := .KeysUpload, body := "b" }] }
        "txn1" .KeysUpload "gibberish").1
      = { entries := [{ transaction_id := "txn1",
                        request_type := .KeysUpload, body := "b" }] } :=
  (markRequestAsSent_decode_failure_retains_requests
    { keysUpload := fun _ => none, keysQuery := fun _ => none,
      keysClaim := fun _ => none, toDevice := fun _ => none,
      signatureUpload := fun _ => none, roomMessage := fun _ => none,
      keysBackup := fun _ => none }
    { entries := [{ transaction_id := "txn1",
                    request_type := .KeysUpload, body := "b" }] }
    "txn1" .KeysUpload "gibberish"
    ⟨"failed to deserialize the response", rfl⟩).1

/-! ## importBackedUpRoomKeys progress reporting (C9) -/

/-- A backed-up room key as received from JavaScript, before parsing (opaque
JSON). -/
abbrev RawBackedUpRoomKey := String

/-- The parsed form of a backed-up room key (external
`matrix_sdk_crypto::store::BackedUpRoomKey`), opaque here. -/
abbrev BackedUpRoomKey := String

/-- From src/machine.rs lines 1159 to 1185: the conversion loop of
`importBackedUpRoomKeys` — each `(room_id, session_id, raw key)` entry
either parses (external `serde_wasm_bindgen`, abstracted as `parse`) and is
pushed, or increments the failure counter. -/
def import_backed_up_room_keys_convert
    (parse : RawBackedUpRoomKey → Option BackedUpRoomKey)
    (backed_up_room_keys : List (String × String × RawBackedUpRoomKey)) :
    List (String × String × BackedUpRoomKey) × Nat :=
  match backed_up_room_keys with
  | [] => ([], 0)
  | entry :: rest =>
      let tail := import_backed_up_room_keys_convert parse rest
      match parse entry.2.2 with
      | some key => ((entry.1, entry.2.1, key) :: tail.1, tail.2)
      | none => (tail.1, tail.2 + 1)

/-- Modelled from the spec: the progress reporting of the external
`Store::import_room_keys` — the callback fires at bounded intervals with
`(progress, total_valid)`, where `total_valid` is the total number of keys
passed in (per the comment in src/machine.rs); the progress values at which
it fires are abstracted as `progress_points`. -/
def inner_import_room_keys_progress {K : Type} (keys : List K)
    (progress_points : List Nat) : List (Nat × Nat) :=
  progress_points.map fun progress => (progress, keys.length)

/-- From src/machine.rs lines 1187 to 1208 (the promise body of
`importBackedUpRoomKeys`): for each inner progress invocation
`(progress, total_valid)` the JavaScript listener receives the three
arguments `(progress, total_valid + failures, failures)`. Returns the list
of listener invocations. -/
def import_backed_up_room_keys
    (parse : RawBackedUpRoomKey → Option BackedUpRoomKey)
    (backed_up_room_keys : List (String × String × RawBackedUpRoomKey))
    (progress_points : List Nat) : List (Nat × Nat × Nat) :=
  let converted := import_backed_up_room_keys_convert parse backed_up_room_keys
  (inner_import_room_keys_progress converted.1 progress_points).map
    fun invocation => (invocation.1, invocation.2 + converted.2, converted.2)

/-- The conversion loop keeps exactly the entries that parse and counts
exactly the entries that fail to parse. -/
theorem import_backed_up_room_keys_convert_counts
    (parse : RawBackedUpRoomKey → Option BackedUpRoomKey)
    (backed_up_room_keys : List (String × String × RawBackedUpRoomKey)) :
    (import_backed_up_room_keys_convert parse backed_up_room_keys).1.length
      = backed_up_room_keys.countP (fun e => (parse e.2.2).isSome)
    ∧ (import_backed_up_room_keys_convert parse backed_up_room_keys).2
      = backed_up_room_keys.countP (fun e => (parse e.2.2).isNone) := by
  induction backed_up_room_keys with
  | nil => exact ⟨rfl, rfl⟩
  | cons entry rest ih =>
      rcases hp : parse entry.2.2 with _ | key <;>
        simp [import_backed_up_room_keys_convert, hp, List.countP_cons, ih.1, ih.2]

/-- C9: every invocation of the progress listener carries a `total` equal to
the number of keys that parsed successfully plus the number that failed to
parse, and a `failures` equal to the number that failed to parse. -/
theorem importBackedUpRoomKeys_progress_args
    (parse : RawBackedUpRoomKey → Option BackedUpRoomKey)
    (backed_up_room_keys : List (String × String × RawBackedUpRoomKey))
    (progress_points : List Nat) :
    ∀ invocation ∈
        import_backed_up_room_keys parse backed_up_room_keys progress_points,
      invocation.2.1
        = backed_up_room_keys.countP (fun e => (parse e.2.2).isSome)
          + backed_up_room_keys.countP (fun e => (parse e.2.2).isNone)
      ∧ invocation.2.2
        = backed_up_room_keys.countP (fun e => (parse e.2.2).isNone) := by
  intro invocation hmem
  obtain ⟨counts1, counts2⟩ :=
    import_backed_up_room_keys_convert_counts parse backed_up_room_keys
  simp only [import_backed_up_room_keys, inner_import_room_keys_progress,
    List.map_map, List.mem_map] at hmem
  obtain ⟨progress, _, rfl⟩ := hmem
  exact ⟨by simp [counts1, counts2], by simp [counts2]⟩

/-- C9 witness: two backed-up keys of which one parses and one fails give
every listener invocation the arguments `total = 1 + 1` and
`failures = 1`. -/
theorem importBackedUpRoomKeys_progress_args_witness :
    ((1, 2, 1) : Nat × Nat × Nat).2.1 = 1 + 1
    ∧ ((1, 2, 1) : Nat × Nat × Nat).2.2 = 1 :=
  importBackedUpRoomKeys_progress_args
    (fun r => if r == "good" then some "material" else none)
    [("!room:example.org", "session1", "good"),
      ("!room:example.org", "session2", "bad")]
    [1] (1, 2, 1) (by decide)
